import Mathlib

/-!
Verification of the oneclaw agent/tool execution loop.

The definitions below are a shallow embedding of the two integration
services:

* `src/infrastructure/integrations/langgraph/main.py` — the LangGraph
  agent loop (`agent_node`, `tool_node`, `should_continue`, the compiled
  graph, and the `/chat` endpoint).  The language model is modelled as an
  opaque function `Model` from the message history to an assistant
  response; the two remote-API tool bodies (`nabl_audit`,
  `nabl_discovery`) are modelled as opaque handlers that either return a
  payload or fail (a raised exception is `Except.error`).  The graph's
  agent → tool → agent cycle is modelled with explicit fuel: `Except.ok
  none` means the run did not reach the end node within the given fuel.

* `src/infrastructure/integrations/crewai/main.py` — the CrewAI tools;
  `NablDiscoveryTool._run` is embedded together with the list of remote
  requests it performs, so that "no request is made" is provable.
-/

namespace Oneclaw

/-- A tool call as emitted by the model: `{id, name, args}`
(`tool_call["id"]`, `tool_call["name"]`, `tool_call["args"]`). -/
structure ToolCall where
  id : String
  name : String
  args : List (String × String)
deriving DecidableEq, Repr

/-- The value stored in a tool result's `result` field: either the JSON
payload a handler returned, or the dict `{"error": msg}` built for an
unknown tool name. -/
inductive Payload where
  | json (data : String)
  | errorObj (msg : String)
deriving DecidableEq, Repr

/-- One entry of `tool_results`: `{"tool_call_id": ..., "result": ...}`. -/
structure ToolResult where
  tool_call_id : String
  result : Payload
deriving DecidableEq, Repr

/-- A message of the conversation: `SystemMessage`, `HumanMessage`, or an
`AIMessage` (which carries the model's tool calls). -/
inductive Message where
  | system (content : String)
  | human (content : String)
  | ai (content : String) (tool_calls : List ToolCall)
deriving DecidableEq, Repr

/-- The `AgentState` TypedDict: `messages`, `tool_calls`, `tool_results`. -/
structure AgentState where
  messages : List Message
  tool_calls : List ToolCall
  tool_results : List ToolResult
deriving DecidableEq, Repr

/-- What `llm.ainvoke(messages)` returns: an assistant message's content
and its (possibly empty) list of tool calls. -/
structure AIResponse where
  content : String
  tool_calls : List ToolCall

/-- The opaque model: message history to assistant response. -/
def Model : Type := List Message → AIResponse

/-- An opaque tool handler (`nabl_audit.ainvoke` / `nabl_discovery.ainvoke`):
given the call's `args`, either a payload or a raised exception. -/
def Handler : Type := List (String × String) → Except String Payload

/-- The two registered tools of the LangGraph integration. -/
structure Env where
  nabl_audit : Handler
  nabl_discovery : Handler

/-- `agent_node`: invoke the model on `state["messages"]`, append the
response, and replace `tool_calls` with the response's tool calls. -/
def agent_node (model : Model) (state : AgentState) : AgentState :=
  let response := model state.messages
  { state with
    messages := state.messages ++ [Message.ai response.content response.tool_calls]
    tool_calls := response.tool_calls }

/-- The dispatch of one tool call inside `tool_node`'s loop: the two
`if tool_call["name"] == ...` branches call the matching handler (whose
exception, if any, propagates), and the final `else` builds the
`{"error": f"Unknown tool: ..."}` payload without calling anything. -/
def dispatch (env : Env) (tc : ToolCall) : Except String Payload :=
  if tc.name = "nabl_audit" then env.nabl_audit tc.args
  else if tc.name = "nabl_discovery" then env.nabl_discovery tc.args
  else Except.ok (Payload.errorObj ("Unknown tool: " ++ tc.name))

/-- The `for tool_call in state.get("tool_calls", [])` loop of `tool_node`:
results are appended in emission order; a handler exception aborts the
whole loop (there is no try/except in the source). -/
def dispatchAll (env : Env) : List ToolCall → Except String (List ToolResult)
  | [] => Except.ok []
  | tc :: rest =>
    match dispatch env tc with
    | Except.error e => Except.error e
    | Except.ok r =>
      match dispatchAll env rest with
      | Except.error e => Except.error e
      | Except.ok rs => Except.ok ({ tool_call_id := tc.id, result := r } :: rs)

/-- `tool_node`: run every pending tool call and return
`{**state, "tool_results": tool_results}` — `tool_results` is replaced,
not extended. -/
def tool_node (env : Env) (state : AgentState) : Except String AgentState :=
  match dispatchAll env state.tool_calls with
  | Except.error e => Except.error e
  | Except.ok tool_results => Except.ok { state with tool_results := tool_results }

/-- `should_continue`: `"tool"` (here `true`) exactly when
`state.get("tool_calls")` is truthy, i.e. the list is non-empty. -/
def should_continue (state : AgentState) : Bool :=
  !state.tool_calls.isEmpty

/-- The compiled graph of `build_agent_graph`, entry point `agent`:
agent, then either the tool node and back to agent, or END.  `fuel`
bounds the recursion for Lean's sake only (the graph itself has no
iteration cap): `Except.ok none` means END was not reached within
`fuel` agent visits. -/
def runLoop (env : Env) (model : Model) : Nat → AgentState → Except String (Option AgentState)
  | 0, _ => Except.ok none
  | fuel + 1, state =>
    let s1 := agent_node model state
    if should_continue s1 then
      match tool_node env s1 with
      | Except.error e => Except.error e
      | Except.ok s2 => runLoop env model fuel s2
    else
      Except.ok (some s1)

/-- The system prompt of the `/chat` endpoint. -/
def systemPrompt : String :=
  "You are iClaw, an AI assistant that can help with:\n- Website audits (use nabl_audit tool)\n- Finding businesses (use nabl_discovery tool)\n\nBe concise and helpful. When using tools, explain what you're doing."

/-- The `initial_state` built by the `/chat` endpoint. -/
def initial_state (message : String) : AgentState :=
  { messages := [Message.system systemPrompt, Message.human message]
    tool_calls := []
    tool_results := [] }

/-- `isinstance(m, AIMessage)`. -/
def isAI : Message → Bool
  | Message.ai _ _ => true
  | _ => false

/-- The response-text extraction of the `/chat` endpoint:
`ai_messages[-1].content if ai_messages else "I couldn't process that
request."`. -/
def response_text (messages : List Message) : String :=
  match (messages.filter isAI).getLast? with
  | some (Message.ai content _) => content
  | _ => "I couldn't process that request."

/-- The `/chat` endpoint's `ChatResponse`. -/
structure ChatResponse where
  response : String
  tool_results : List ToolResult
deriving DecidableEq, Repr

/-- The `/chat` endpoint: seed the state, run the graph, extract the last
AI message's content and `result.get("tool_results", [])`. -/
def chat (env : Env) (model : Model) (fuel : Nat) (message : String) :
    Except String (Option ChatResponse) :=
  match runLoop env model fuel (initial_state message) with
  | Except.error e => Except.error e
  | Except.ok none => Except.ok none
  | Except.ok (some result) =>
    Except.ok (some { response := response_text result.messages
                      tool_results := result.tool_results })

/-- Ghost-instrumented variant of `runLoop` that additionally accumulates
every tool-result batch produced by every tool-node visit (the loop itself
never keeps this accumulation; it is introduced only to compare the
returned `tool_results` with the full accumulation across iterations). -/
def runLoopAcc (env : Env) (model : Model) :
    Nat → AgentState → List ToolResult → Except String (Option (AgentState × List ToolResult))
  | 0, _, _ => Except.ok none
  | fuel + 1, state, acc =>
    let s1 := agent_node model state
    if should_continue s1 then
      match tool_node env s1 with
      | Except.error e => Except.error e
      | Except.ok s2 => runLoopAcc env model fuel s2 (acc ++ s2.tool_results)
    else
      Except.ok (some (s1, acc))

/-- Ghost-instrumented variant of `runLoop` that counts the agent-node
(`AWAITING_MODEL`) visits of the run. -/
def runLoopCount (env : Env) (model : Model) :
    Nat → AgentState → Nat → Except String (Option (AgentState × Nat))
  | 0, _, _ => Except.ok none
  | fuel + 1, state, visits =>
    let s1 := agent_node model state
    if should_continue s1 then
      match tool_node env s1 with
      | Except.error e => Except.error e
      | Except.ok s2 => runLoopCount env model fuel s2 (visits + 1)
    else
      Except.ok (some (s1, visits + 1))

/-- The final state's `tool_results` of an instrumented run (`[]` when the
run errored or ran out of fuel). -/
def finalResultsOf : Except String (Option (AgentState × List ToolResult)) → List ToolResult
  | Except.ok (some (final, _)) => final.tool_results
  | _ => []

/-- The ghost accumulation of an instrumented run (`[]` when the run
errored or ran out of fuel). -/
def accOf : Except String (Option (AgentState × List ToolResult)) → List ToolResult
  | Except.ok (some (_, acc)) => acc
  | _ => []

/-! ### CrewAI integration (`src/infrastructure/integrations/crewai/main.py`) -/

/-- One business record of a discovery result (`biz.get('name')`,
`biz.get('phone')`, `biz.get('website')`; `none` models an absent key and
a `some` of the empty string a present but falsy value). -/
structure Business where
  name : String
  phone : Option String
  website : Option String
deriving DecidableEq, Repr

/-- The remote workflow API's parsed JSON reply for a discovery request:
either `{status: "error", error: msg}` or a result with `total_found`
and `businesses`. -/
inductive DiscoveryResult where
  | error (msg : String)
  | ok (total_found : Nat) (businesses : List Business)
deriving DecidableEq, Repr

/-- The request body `NablDiscoveryTool._run` posts to the workflow API:
`params = {"niche": ..., "location": ..., "limit": ...}`. -/
structure DiscoveryRequest where
  niche : String
  location : String
  limit : Nat
deriving DecidableEq, Repr

/-- Python truthiness of an optional string (`if biz.get('phone'):`):
absent or empty is falsy. -/
def truthy : Option String → Bool
  | none => false
  | some s => !s.isEmpty

/-- One line group of the discovery output: `f"{i}. {biz.get('name')}\n"`
plus the phone and website lines when truthy. -/
def renderBusiness (i : Nat) (biz : Business) : String :=
  toString i ++ ". " ++ biz.name ++ "\n"
  ++ (match biz.phone with
      | some p => if truthy (some p) then "   Phone: " ++ p ++ "\n" else ""
      | none => "")
  ++ (match biz.website with
      | some w => if truthy (some w) then "   Website: " ++ w ++ "\n" else ""
      | none => "")

/-- `for i, biz in enumerate(businesses[:5], 1)` — the caller passes the
already-truncated list and the starting index 1. -/
def renderBusinesses : Nat → List Business → String
  | _, [] => ""
  | i, biz :: rest => renderBusiness i biz ++ renderBusinesses (i + 1) rest

/-- Python's `str.split("|")` on the character list of the string: the
list of parts between the pipe characters (the empty string splits into
one empty part). -/
def splitPipe : List Char → List (List Char)
  | [] => [[]]
  | c :: rest =>
    if c = '|' then [] :: splitPipe rest
    else
      match splitPipe rest with
      | [] => [[c]]
      | part :: parts => (c :: part) :: parts

/-- Python's `str.strip()` on the character list of the string:
whitespace removed from both ends. -/
def pyStrip (l : List Char) : List Char :=
  ((l.dropWhile Char.isWhitespace).reverse.dropWhile Char.isWhitespace).reverse

/-- `NablDiscoveryTool._run`: split the query on `"|"`; with anything but
exactly two parts (`if len(parts) != 2`), return the fixed invalid-format
message and perform no remote request; otherwise strip both parts and post
one discovery request (with the hard-coded `"limit": 10`) and format the
reply.  The second component of the returned pair lists the remote
requests performed by the call. -/
def NablDiscoveryTool_run (remote : DiscoveryRequest → DiscoveryResult) (query : String) :
    String × List DiscoveryRequest :=
  let parts := splitPipe query.data
  if parts.length ≠ 2 then ("Invalid format. Use: 'niche|location'", [])
  else
    let niche := String.mk (pyStrip (parts.getD 0 []))
    let location := String.mk (pyStrip (parts.getD 1 []))
    let req : DiscoveryRequest := { niche := niche, location := location, limit := 10 }
    match remote req with
    | DiscoveryResult.error msg => ("Discovery failed: " ++ msg, [req])
    | DiscoveryResult.ok total_found businesses =>
      ("Found " ++ toString total_found ++ " " ++ niche ++ " businesses in " ++ location
        ++ ":\n\n" ++ renderBusinesses 1 (businesses.take 5), [req])

/-! ### Tool parameter schemas exposed to the model

Read off the tool signatures: `nabl_audit(url: str)`,
`nabl_discovery(niche: str, location: str, limit: int = 50)` in the
LangGraph integration; `NablAuditTool._run(url: str)`,
`NablDiscoveryTool._run(query: str)` in the CrewAI integration. -/

/-- The type of a tool parameter as exposed to the model. -/
inductive ParamType where
  | string
  | integer
deriving DecidableEq, Repr

/-- One parameter of a tool schema: name, type, optional default value. -/
structure ParamSpec where
  name : String
  ty : ParamType
  defaultValue : Option Nat
deriving DecidableEq, Repr

/-- Schema of `nabl_audit(url: str)` in the LangGraph integration. -/
def langgraph_audit_params : List ParamSpec :=
  [{ name := "url", ty := ParamType.string, defaultValue := none }]

/-- Schema of `nabl_discovery(niche: str, location: str, limit: int = 50)`
in the LangGraph integration. -/
def langgraph_discovery_params : List ParamSpec :=
  [{ name := "niche", ty := ParamType.string, defaultValue := none },
   { name := "location", ty := ParamType.string, defaultValue := none },
   { name := "limit", ty := ParamType.integer, defaultValue := some 50 }]

/-- Schema of `NablAuditTool._run(url: str)` in the CrewAI integration. -/
def crewai_audit_params : List ParamSpec :=
  [{ name := "url", ty := ParamType.string, defaultValue := none }]

/-- Schema of `NablDiscoveryTool._run(query: str)` in the CrewAI
integration: a single pipe-separated string. -/
def crewai_discovery_params : List ParamSpec :=
  [{ name := "query", ty := ParamType.string, defaultValue := none }]

/-- The audit schema as the spec words it: `audit(url: string)`. -/
def spec_audit_params : List ParamSpec :=
  [{ name := "url", ty := ParamType.string, defaultValue := none }]

/-- The discovery schema as the spec words it:
`discovery(niche: string, location: string, limit: integer, default 50)`. -/
def spec_discovery_params : List ParamSpec :=
  [{ name := "niche", ty := ParamType.string, defaultValue := none },
   { name := "location", ty := ParamType.string, defaultValue := none },
   { name := "limit", ty := ParamType.integer, defaultValue := some 50 }]

/-! ### Concrete fixtures: stub handlers, stub models, example calls -/

/-- A stub handler that always succeeds with an opaque payload. -/
def okHandler : Handler := fun _ => Except.ok (Payload.json "ok")

/-- An environment whose two handlers always succeed. -/
def exEnv : Env := { nabl_audit := okHandler, nabl_discovery := okHandler }

/-- A concrete audit tool call. -/
def exCall1 : ToolCall := { id := "c1", name := "nabl_audit", args := [("url", "example.com")] }

/-- A second concrete audit tool call. -/
def exCall2 : ToolCall := { id := "c2", name := "nabl_audit", args := [("url", "example.org")] }

/-- A stub model driving two tool iterations and then a final answer
(the message history has length 2 at the first visit and grows by one
assistant message per visit, since tool results are never appended to
`messages`). -/
def exModel : Model := fun messages =>
  if messages.length = 2 then { content := "using tools", tool_calls := [exCall1] }
  else if messages.length = 3 then { content := "using tools again", tool_calls := [exCall2] }
  else { content := "done", tool_calls := [] }

/-- An environment whose audit handler raises (`httpx` failure, timeout,
malformed arguments). -/
def errEnv : Env :=
  { nabl_audit := fun _ => Except.error "boom", nabl_discovery := okHandler }

/-- A stub model that requests a tool call on every invocation. -/
def loopingModel : Model := fun _ => { content := "", tool_calls := [exCall1] }

/-- A tool call naming a tool that is not in the registry. -/
def unknownCall : ToolCall := { id := "u1", name := "nonexistent", args := [] }

/-- A stub model that first emits the unknown tool call and then recovers
with a final answer. -/
def unknownModel : Model := fun messages =>
  if messages.length = 2 then { content := "trying a tool", tool_calls := [unknownCall] }
  else { content := "recovered", tool_calls := [] }

/-- A stub model that immediately answers with no tool calls. -/
def plainModel : Model := fun _ => { content := "hello!", tool_calls := [] }

/-- A state with two pending tool calls, as `tool_node` receives it. -/
def toolState : AgentState :=
  { messages := [], tool_calls := [exCall1, exCall2], tool_results := [] }

/-- `toolState` after `tool_node`: both results, in emission order. -/
def toolStateAfter : AgentState :=
  { messages := []
    tool_calls := [exCall1, exCall2]
    tool_results := [{ tool_call_id := "c1", result := Payload.json "ok" },
                     { tool_call_id := "c2", result := Payload.json "ok" }] }

/-! ### Helper lemmas -/

/-- When `dispatchAll` succeeds, the result list mirrors the call list:
the `tool_call_id`s are exactly the calls' ids, in emission order. -/
theorem dispatchAll_ids (env : Env) :
    ∀ (calls : List ToolCall) (rs : List ToolResult),
      dispatchAll env calls = Except.ok rs →
      rs.map ToolResult.tool_call_id = calls.map ToolCall.id := by
  intro calls
  induction calls with
  | nil =>
    intro rs h
    unfold dispatchAll at h
    cases h
    rfl
  | cons tc rest ih =>
    intro rs h
    unfold dispatchAll at h
    cases hd : dispatch env tc with
    | error e => rw [hd] at h; cases h
    | ok r =>
      rw [hd] at h
      cases hrest : dispatchAll env rest with
      | error e => rw [hrest] at h; cases h
      | ok rs2 =>
        rw [hrest] at h
        cases h
        simp [ih rs2 hrest]

/-- The plain loop is the instrumented loop with the ghost accumulator
dropped: `runLoopAcc` is a faithful instrumentation of `runLoop`. -/
theorem runLoopAcc_fst (env : Env) (model : Model) :
    ∀ (fuel : Nat) (s : AgentState) (acc : List ToolResult),
      (runLoopAcc env model fuel s acc).map (Option.map Prod.fst) = runLoop env model fuel s := by
  intro fuel
  induction fuel with
  | zero => intro s acc; rfl
  | succ n ih =>
    intro s acc
    unfold runLoop runLoopAcc
    by_cases hc : should_continue (agent_node model s)
    · simp only [hc, if_true]
      cases ht : tool_node env (agent_node model s) with
      | error e => rfl
      | ok s2 => exact ih s2 _
    · simp only [hc, if_false]
      rfl

/-! ### Claim C1 -/

/-- C1 is false on the code: in a concrete run of the loop that reaches
the end node after two tool iterations, the returned `tool_results`
holds only the second iteration's result, while the ghost accumulation
across all iterations holds both; the first iteration's result is not in
the returned sequence. -/
theorem C1_counterexample :
    (runLoopAcc exEnv exModel 5 (initial_state "hi") []).map
        (Option.map (fun p => (p.1.tool_results, p.2)))
      = Except.ok (some ([{ tool_call_id := "c2", result := Payload.json "ok" }],
          [{ tool_call_id := "c1", result := Payload.json "ok" },
           { tool_call_id := "c2", result := Payload.json "ok" }])) ∧
    chat exEnv exModel 5 "hi"
      = Except.ok (some { response := "done"
                          tool_results := [{ tool_call_id := "c2", result := Payload.json "ok" }] }) ∧
    ({ tool_call_id := "c1", result := Payload.json "ok" } : ToolResult) ∉
      [({ tool_call_id := "c2", result := Payload.json "ok" } : ToolResult)] :=
  ⟨rfl, rfl, by decide⟩

/-- C1 (amended): in every run of the loop that reaches the end node, the
returned `tool_results` is only the batch written by the last tool
iteration (`tool_node` overwrites the field), hence a suffix of — in
general not the whole of — the accumulation of the ToolResults of all
`AWAITING_TOOLS` iterations. -/
theorem C1_amended_last_batch_only (env : Env) (model : Model) (fuel : Nat)
    (s : AgentState) (acc : List ToolResult)
    (hsuf : s.tool_results.IsSuffix acc) :
    (finalResultsOf (runLoopAcc env model fuel s acc)).IsSuffix
      (accOf (runLoopAcc env model fuel s acc)) := by
  induction fuel generalizing s acc with
  | zero => exact List.suffix_refl []
  | succ n ih =>
    unfold runLoopAcc
    by_cases hc : should_continue (agent_node model s)
    · simp only [hc, if_true]
      cases ht : tool_node env (agent_node model s) with
      | error e => exact List.suffix_refl []
      | ok s2 => exact ih s2 _ (List.suffix_append acc s2.tool_results)
    · simp only [hc, if_false]
      simpa [finalResultsOf, accOf, agent_node] using hsuf

/-- Witness for C1 (amended) at a concrete two-iteration run. -/
theorem C1_amended_witness :
    (finalResultsOf (runLoopAcc exEnv exModel 5 (initial_state "hi") [])).IsSuffix
      (accOf (runLoopAcc exEnv exModel 5 (initial_state "hi") [])) :=
  C1_amended_last_batch_only exEnv exModel 5 (initial_state "hi") [] (List.suffix_refl [])

/-! ### Claim C2 -/

/-- C2: the graph built by `build_agent_graph` has no iteration cap of
its own — with a stub model that returns a tool call on every
invocation (and handlers that never fail), the loop never reaches the
end node, for every fuel and from every state: the model/tool cycle
iterates indefinitely instead of failing after a configured maximum.
(Evaluates the code at the failing input of the code_bug record.) -/
theorem C2_no_iteration_bound (fuel : Nat) (s : AgentState) :
    runLoop exEnv loopingModel fuel s = Except.ok none := by
  induction fuel generalizing s with
  | zero => rfl
  | succ n ih =>
    have step : runLoop exEnv loopingModel (n + 1) s
        = runLoop exEnv loopingModel n
            { agent_node loopingModel s with
              tool_results := [{ tool_call_id := "c1", result := Payload.json "ok" }] } := rfl
    rw [step]
    exact ih _

/-! ### Claim C3 -/

/-- C3 is false on the code: `tool_node` has no try/except, so a handler
that raises during execution (here the audit handler raising "boom")
aborts the whole conversation — `chat` fails with the raised error
instead of returning a ToolResult payload `{error: ...}`. -/
theorem C3_counterexample :
    chat errEnv exModel 5 "hi" = Except.error "boom" := rfl

/-- C3 (amended): only the unknown-tool case is converted into an
error-payload ToolResult; when the handler of a pending call raises, the
tool-dispatch step does not catch it — the first failing call's error
propagates out of `tool_node` and aborts the conversation. -/
theorem C3_amended_handler_error_propagates (env : Env) (s : AgentState)
    (tc : ToolCall) (rest : List ToolCall) (e : String)
    (hcalls : s.tool_calls = tc :: rest)
    (herr : dispatch env tc = Except.error e) :
    tool_node env s = Except.error e := by
  unfold tool_node
  rw [hcalls]
  unfold dispatchAll
  rw [herr]

/-- Witness for C3 (amended): the raising audit handler aborts
`tool_node` on a concrete pending call. -/
theorem C3_amended_witness :
    tool_node errEnv { messages := [], tool_calls := [exCall1], tool_results := [] }
      = Except.error "boom" :=
  C3_amended_handler_error_propagates errEnv
    { messages := [], tool_calls := [exCall1], tool_results := [] }
    exCall1 [] "boom" rfl rfl

/-! ### Claim C4 -/

/-- C4: a tool call naming a tool not in the registry dispatches, without
raising, to the payload `{error: "Unknown tool: <name>"}`; when it is the
pending call of an iteration, the loop installs that result exactly as it
would a successful one and hands control back to the model — the case is
never fatal. -/
theorem C4_unknown_tool_error_as_data (env : Env) (model : Model) (fuel : Nat)
    (s : AgentState) (tc : ToolCall)
    (h1 : tc.name ≠ "nabl_audit") (h2 : tc.name ≠ "nabl_discovery")
    (hcalls : (agent_node model s).tool_calls = [tc]) :
    dispatch env tc = Except.ok (Payload.errorObj ("Unknown tool: " ++ tc.name)) ∧
    runLoop env model (fuel + 1) s =
      runLoop env model fuel
        { agent_node model s with
          tool_results := [{ tool_call_id := tc.id
                             result := Payload.errorObj ("Unknown tool: " ++ tc.name) }] } := by
  have hd : dispatch env tc = Except.ok (Payload.errorObj ("Unknown tool: " ++ tc.name)) := by
    unfold dispatch
    rw [if_neg h1, if_neg h2]
  refine ⟨hd, ?_⟩
  have hsc : should_continue (agent_node model s) = true := by
    simp [should_continue, hcalls]
  have ht : tool_node env (agent_node model s)
      = Except.ok { agent_node model s with
                    tool_results := [{ tool_call_id := tc.id
                                       result := Payload.errorObj ("Unknown tool: " ++ tc.name) }] } := by
    unfold tool_node
    rw [hcalls]
    unfold dispatchAll
    rw [hd]
    unfold dispatchAll
    simp [hcalls]
  have step : runLoop env model (fuel + 1) s
      = (if should_continue (agent_node model s) then
           match tool_node env (agent_node model s) with
           | Except.error e => Except.error e
           | Except.ok s2 => runLoop env model fuel s2
         else Except.ok (some (agent_node model s))) := rfl
  rw [step, if_pos hsc, ht]

/-- Witness for C4 at the concrete unknown call `nonexistent`. -/
theorem C4_witness :
    dispatch exEnv unknownCall
      = Except.ok (Payload.errorObj ("Unknown tool: " ++ unknownCall.name)) ∧
    runLoop exEnv unknownModel (3 + 1) (initial_state "hi") =
      runLoop exEnv unknownModel 3
        { agent_node unknownModel (initial_state "hi") with
          tool_results := [{ tool_call_id := unknownCall.id
                             result := Payload.errorObj ("Unknown tool: " ++ unknownCall.name) }] } :=
  C4_unknown_tool_error_as_data exEnv unknownModel 3 (initial_state "hi") unknownCall
    (by decide) (by decide) rfl

/-! ### Claim C5 -/

/-- C5: whenever `tool_node` completes, the produced ToolResult batch has
exactly one entry per pending tool call, and position by position each
result's `tool_call_id` is the id of the call at the same position of the
model's emission order (the dispatch is sequential, so this alignment
does not depend on per-call completion timing). -/
theorem C5_results_align_with_calls (env : Env) (s s2 : AgentState)
    (h : tool_node env s = Except.ok s2) :
    s2.tool_results.length = s.tool_calls.length ∧
    s2.tool_results.map ToolResult.tool_call_id = s.tool_calls.map ToolCall.id := by
  unfold tool_node at h
  cases hd : dispatchAll env s.tool_calls with
  | error e => rw [hd] at h; cases h
  | ok rs =>
    rw [hd] at h
    cases h
    have hm := dispatchAll_ids env s.tool_calls rs hd
    refine ⟨?_, by simpa using hm⟩
    have := congrArg List.length hm
    simpa using this

/-- Witness for C5: both concrete calls produce results in order. -/
theorem C5_witness :
    toolStateAfter.tool_results.length = toolState.tool_calls.length ∧
    toolStateAfter.tool_results.map ToolResult.tool_call_id
      = toolState.tool_calls.map ToolCall.id :=
  C5_results_align_with_calls exEnv toolState toolStateAfter rfl

/-! ### Claim C6 -/

/-- C6: when the first model response carries zero tool calls, the run
makes exactly one agent-node (`AWAITING_MODEL`) visit and the `/chat`
endpoint returns that response's content with an empty ToolResult
sequence. -/
theorem C6_zero_tool_calls_single_visit (env : Env) (model : Model) (fuel : Nat)
    (message : String)
    (hf : 0 < fuel)
    (h : (model (initial_state message).messages).tool_calls = []) :
    runLoopCount env model fuel (initial_state message) 0
      = Except.ok (some (agent_node model (initial_state message), 1)) ∧
    chat env model fuel message
      = Except.ok (some { response := (model (initial_state message).messages).content
                          tool_results := [] }) := by
  obtain ⟨n, rfl⟩ : ∃ n, fuel = n + 1 := ⟨fuel - 1, by omega⟩
  have hsc : should_continue (agent_node model (initial_state message)) = false := by
    simp [should_continue, agent_node, h]
  constructor
  · unfold runLoopCount
    simp only [hsc, if_false]
    rfl
  · unfold chat runLoop
    simp only [hsc, if_false]
    simp [response_text, agent_node, initial_state, isAI, h]

/-- Witness for C6 with a stub model that answers immediately. -/
theorem C6_witness :
    runLoopCount exEnv plainModel 3 (initial_state "hi") 0
      = Except.ok (some (agent_node plainModel (initial_state "hi"), 1)) ∧
    chat exEnv plainModel 3 "hi"
      = Except.ok (some { response := (plainModel (initial_state "hi").messages).content
                          tool_results := [] }) :=
  C6_zero_tool_calls_single_visit exEnv plainModel 3 "hi" (by decide) rfl

/-! ### Claim C7 -/

/-- C7: an iteration's tool-result batch belongs to the immediately
preceding assistant message — after `agent_node`, the last message of the
history is the assistant message just produced, the pending-call set is
exactly that message's tool calls (whatever pending calls the incoming
state carried from earlier iterations are replaced, never carried over),
and the batch `tool_node` then produces lists exactly those calls' ids in
order. -/
theorem C7_results_match_last_assistant (env : Env) (model : Model) (s s2 : AgentState)
    (h : tool_node env (agent_node model s) = Except.ok s2) :
    (agent_node model s).messages.getLast?
      = some (Message.ai (model s.messages).content (model s.messages).tool_calls) ∧
    (agent_node model s).tool_calls = (model s.messages).tool_calls ∧
    s2.tool_results.map ToolResult.tool_call_id
      = ((model s.messages).tool_calls).map ToolCall.id := by
  refine ⟨by simp [agent_node], rfl, ?_⟩
  unfold tool_node at h
  cases hd : dispatchAll env (agent_node model s).tool_calls with
  | error e => rw [hd] at h; cases h
  | ok rs =>
    rw [hd] at h
    cases h
    simpa using dispatchAll_ids env (agent_node model s).tool_calls rs hd

/-- Witness for C7 at the first iteration of the concrete two-tool run. -/
theorem C7_witness :
    (agent_node exModel (initial_state "hi")).messages.getLast?
      = some (Message.ai (exModel (initial_state "hi").messages).content
          (exModel (initial_state "hi").messages).tool_calls) ∧
    (agent_node exModel (initial_state "hi")).tool_calls
      = (exModel (initial_state "hi").messages).tool_calls ∧
    ({ agent_node exModel (initial_state "hi") with
       tool_results := [{ tool_call_id := "c1", result := Payload.json "ok" }] }
        : AgentState).tool_results.map ToolResult.tool_call_id
      = ((exModel (initial_state "hi").messages).tool_calls).map ToolCall.id :=
  C7_results_match_last_assistant exEnv exModel (initial_state "hi")
    { agent_node exModel (initial_state "hi") with
      tool_results := [{ tool_call_id := "c1", result := Payload.json "ok" }] }
    rfl

/-! ### Claim C8 -/

/-- C8 is false on the code: the CrewAI discovery tool does not take
`niche`, `location` and `limit` parameters — its `_run` takes a single
`query` string. -/
theorem C8_counterexample : crewai_discovery_params ≠ spec_discovery_params := by
  decide

/-- C8 (amended): in both integrations the audit tool takes a single
`url` string, and the LangGraph discovery tool takes `niche` (string),
`location` (string) and `limit` (integer, default 50); the CrewAI
discovery tool instead takes one `query` string in the format
`niche|location` and sends the hard-coded limit 10 in its remote
request. -/
theorem C8_amended_schemas :
    langgraph_audit_params = spec_audit_params ∧
    crewai_audit_params = spec_audit_params ∧
    langgraph_discovery_params = spec_discovery_params ∧
    crewai_discovery_params
      = [{ name := "query", ty := ParamType.string, defaultValue := none }] ∧
    (NablDiscoveryTool_run (fun _ => DiscoveryResult.error "down") "plumbers|Denver, CO").2
      = [{ niche := "plumbers", location := "Denver, CO", limit := 10 }] :=
  ⟨rfl, rfl, rfl, rfl, rfl⟩

/-! ### Claim C9 -/

/-- C9: when the query does not split on the pipe character into exactly
two parts, the CrewAI discovery tool returns the fixed invalid-format
message and performs no remote request. -/
theorem C9_invalid_format_no_request (remote : DiscoveryRequest → DiscoveryResult)
    (query : String)
    (h : (splitPipe query.data).length ≠ 2) :
    NablDiscoveryTool_run remote query = ("Invalid format. Use: 'niche|location'", []) := by
  unfold NablDiscoveryTool_run
  simp [h]

/-- Witness for C9 at the pipe-free query `abc`. -/
theorem C9_witness :
    ((splitPipe "abc".data).length ≠ 2) ∧
    NablDiscoveryTool_run (fun _ => DiscoveryResult.error "down") "abc"
      = ("Invalid format. Use: 'niche|location'", []) :=
  ⟨by decide,
   C9_invalid_format_no_request (fun _ => DiscoveryResult.error "down") "abc" (by decide)⟩

/-! ### Claim C10 -/

/-- C10: for any final message history, the `/chat` endpoint's
response-text extraction returns the fixed fallback text when the history
holds no AI message, and otherwise the content of the last AI message
(which always exists and has that shape). -/
theorem C10_last_ai_or_fallback (messages : List Message) :
    ((∀ m ∈ messages, isAI m = false) →
      response_text messages = "I couldn't process that request.") ∧
    (∀ content tool_calls,
      (messages.filter isAI).getLast? = some (Message.ai content tool_calls) →
      response_text messages = content) ∧
    ((∃ m ∈ messages, isAI m = true) →
      ∃ content tool_calls,
        (messages.filter isAI).getLast? = some (Message.ai content tool_calls)) := by
  refine ⟨?_, ?_, ?_⟩
  · intro hall
    have hnil : messages.filter isAI = [] := by
      simp only [List.filter_eq_nil_iff]
      intro m hm
      simp [hall m hm]
    unfold response_text
    rw [hnil]
    rfl
  · intro content tool_calls hlast
    unfold response_text
    rw [hlast]
  · rintro ⟨m, hm, hAI⟩
    have hne : messages.filter isAI ≠ [] := by
      intro hnil
      have : m ∈ messages.filter isAI := List.mem_filter.mpr ⟨hm, hAI⟩
      simp [hnil] at this
    have hl := List.getLast?_eq_getLast_of_ne_nil hne
    have hlin : (messages.filter isAI).getLast hne ∈ messages.filter isAI :=
      List.getLast_mem hne
    have hlAI : isAI ((messages.filter isAI).getLast hne) = true :=
      (List.mem_filter.mp hlin).2
    obtain ⟨c, tcs, hform⟩ :
        ∃ c tcs, (messages.filter isAI).getLast hne = Message.ai c tcs := by
      cases hcase : (messages.filter isAI).getLast hne with
      | system c => rw [hcase] at hlAI; simp [isAI] at hlAI
      | human c => rw [hcase] at hlAI; simp [isAI] at hlAI
      | ai c tcs => exact ⟨c, tcs, rfl⟩
    exact ⟨c, tcs, by rw [hl, hform]⟩

end Oneclaw
